import Mathlib

/-!
Verification development for the SmartRent Indigo plugin
(`SmartRent.indigoPlugin/Contents/Server Plugin/plugin.py`).

The Python source is shallowly embedded below: the host enumerations
(`indigo.kHvacMode`, `indigo.kFanMode`, `indigo.kStateImageSel`) become
inductive types, the module-level mapping dictionaries become functions
returning `Option`, the observable-state vector of an Indigo device becomes
a function from state keys to optional values, Python exceptions become an
`Except` error type, and each handler of the plugin becomes a Lean function
over this model.  The external TOTP generator (from `pyotp`) is modelled
from the spec, as noted on its definition.
-/

/-- The Indigo host HVAC-mode enumeration `indigo.kHvacMode`, as consumed by
the plugin's mapping dictionaries (the four mapped values plus the program
modes the host also offers, which the plugin leaves unmapped). -/
inductive HvacMode
  | Cool
  | Heat
  | HeatCool
  | Off
  | ProgramCool
  | ProgramHeat
  | ProgramHeatCool
deriving DecidableEq, Repr

/-- The Indigo host fan-mode enumeration `indigo.kFanMode`. -/
inductive FanMode
  | AlwaysOn
  | Auto
deriving DecidableEq, Repr

/-- The Indigo host state-image selector `indigo.kStateImageSel` (the two
values the plugin uses). -/
inductive StateImageSel
  | Locked
  | Unlocked
deriving DecidableEq, Repr

/-- `SMARTRENT_INDIGO_HVAC_FAN_MODES` from plugin.py: mapping of SmartRent
fan modes to Indigo fan modes; `none` models a Python `KeyError` on `[]`
indexing. -/
def SMARTRENT_INDIGO_HVAC_FAN_MODES : String → Option FanMode
  | "on" => some FanMode.AlwaysOn
  | "auto" => some FanMode.Auto
  | _ => none

/-- `INDIGO_SMARTRENT_HVAC_FAN_MODES` from plugin.py: mapping of Indigo fan
modes to SmartRent fan modes, looked up with `.get` (hence `Option`). -/
def INDIGO_SMARTRENT_HVAC_FAN_MODES : FanMode → Option String
  | FanMode.AlwaysOn => some "on"
  | FanMode.Auto => some "auto"

/-- `SMARTRENT_INDIGO_HVAC_MODES` from plugin.py: mapping of SmartRent Hvac
modes to Indigo Hvac modes; `none` models a Python `KeyError` on `[]`
indexing. -/
def SMARTRENT_INDIGO_HVAC_MODES : String → Option HvacMode
  | "cool" => some HvacMode.Cool
  | "heat" => some HvacMode.Heat
  | "auto" => some HvacMode.HeatCool
  | "off" => some HvacMode.Off
  | _ => none

/-- `INDIGO_SMARTRENT_HVAC_MODES` from plugin.py: mapping of Indigo Hvac
modes to SmartRent Hvac modes, looked up with `.get` (hence `Option`). -/
def INDIGO_SMARTRENT_HVAC_MODES : HvacMode → Option String
  | HvacMode.Cool => some "cool"
  | HvacMode.Heat => some "heat"
  | HvacMode.HeatCool => some "auto"
  | HvacMode.Off => some "off"
  | _ => none

/-- A value stored in an Indigo device state (the plugin writes booleans,
numbers, strings, Hvac modes and fan modes). -/
inductive StateValue
  | b (x : Bool)
  | i (x : Int)
  | s (x : String)
  | hvac (m : HvacMode)
  | fan (m : FanMode)
deriving DecidableEq, Repr

/-- The observable-state vector of a local Indigo device: a partial map
from state keys to values. -/
def StateVec : Type := String → Option StateValue

/-- `device.updateStatesOnServer(...)`: apply a list of key/value updates in
order to a state vector (later writes override earlier ones). -/
def updateStates (st : StateVec) (us : List (String × StateValue)) : StateVec :=
  us.foldl (fun acc kv => fun k => if k = kv.1 then some kv.2 else acc k) st

/-- The effective write of an update list at a key, starting from a given
accumulator: the last update whose key matches wins. -/
def lookupUpdFrom (acc : Option StateValue) (us : List (String × StateValue)) (k : String) :
    Option StateValue :=
  us.foldl (fun a kv => if k = kv.1 then some kv.2 else a) acc

/-- The effective write of an update list at a key. -/
def lookupUpd (us : List (String × StateValue)) (k : String) : Option StateValue :=
  lookupUpdFrom none us k

/-- The attribute record of a SmartRent thermostat as read by the plugin
(`get_current_humidity`, `get_operating_state`, `get_fan_mode`, `get_mode`,
`get_cooling_setpoint`, `get_heating_setpoint`, `get_current_temp`,
`get_online`). -/
structure ThermostatData where
  online : Bool
  mode : String
  fan_mode : String
  operating_state : String
  cooling_setpoint : Int
  heating_setpoint : Int
  current_temp : Int
  current_humidity : Int
deriving DecidableEq, Repr

/-- The attribute record of a SmartRent door lock as read by the plugin
(`get_battery_level`, `get_locked`, `get_online`). -/
structure DoorLockData where
  online : Bool
  locked : Bool
  battery_level : Int
deriving DecidableEq, Repr

/-- A remote SmartRent device record: the concrete classes of the
`smartrent` client library that the plugin dispatches on with `isinstance`
(`Thermostat`, `DoorLock`, and the remaining categories, represented here
by `leakSensor`), each carrying its `_device_id`. -/
inductive SmartRentDevice
  | thermostat (device_id : Nat) (d : ThermostatData)
  | doorLock (device_id : Nat) (d : DoorLockData)
  | leakSensor (device_id : Nat) (online : Bool)
deriving DecidableEq, Repr

/-- `smartrent_device._device_id`. -/
def SmartRentDevice.device_id : SmartRentDevice → Nat
  | SmartRentDevice.thermostat i _ => i
  | SmartRentDevice.doorLock i _ => i
  | SmartRentDevice.leakSensor i _ => i

/-- `smartrent_device.get_online()`. -/
def SmartRentDevice.get_online : SmartRentDevice → Bool
  | SmartRentDevice.thermostat _ d => d.online
  | SmartRentDevice.doorLock _ d => d.online
  | SmartRentDevice.leakSensor _ onl => onl

/-- A local Indigo device record as touched by the plugin: its name, its
declared type (`device.deviceTypeId`), its binding
(`int(device.pluginProps.get("smartrent-device", 0))`), the two setpoint
attributes the thermostat actions read, its observable-state vector and the
state image last pushed with `updateStateImageOnServer`. -/
structure Device where
  name : String
  deviceTypeId : String
  smartrent_device_prop : Nat
  coolSetpoint : Int
  heatSetpoint : Int
  states : StateVec
  stateImage : Option StateImageSel

/-- The Python exceptions that plugin.py raises or handles: `TypeError`
from the category checks in `update_device_from_smartrent`, `KeyError`
from `[]` indexing into the mode dictionaries, and `ValueError` from
`more_itertools.first` on an empty iterable. -/
inductive PyError
  | typeError
  | keyError
  | valueError
deriving DecidableEq, Repr

/-- `Plugin.update_device_from_smartrent(device, smartrent_device)`:
build the `state_updates` dictionary (always `online`; thermostat fields
for a `thermostat` device, lock fields for a `lock` device) and apply it
with `updateStatesOnServer`; for locks, the `lockStatus` text and the state
image are pushed first, exactly as in the source.  An `Except.error` is a
Python exception escaping the call: `TypeError` when the bound remote
device has the wrong class for the declared type, `KeyError` when a remote
mode string is missing from a mapping dictionary. -/
def update_device_from_smartrent (device : Device) (sd : SmartRentDevice) :
    Except PyError Device :=
  let state_updates : List (String × StateValue) :=
    [("online", StateValue.b sd.get_online)]
  if device.deviceTypeId = "thermostat" then
    match sd with
    | SmartRentDevice.thermostat _ d =>
      match SMARTRENT_INDIGO_HVAC_FAN_MODES d.fan_mode with
      | none => Except.error PyError.keyError
      | some fm =>
        match SMARTRENT_INDIGO_HVAC_MODES d.mode with
        | none => Except.error PyError.keyError
        | some m =>
          let upds := state_updates ++
            [("humidityInput1", StateValue.i d.current_humidity),
             ("hvacCoolerIsOn", StateValue.b (d.operating_state == "cooling")),
             ("hvacFanMode", StateValue.fan fm),
             ("hvacHeaterIsOn", StateValue.b (d.operating_state == "heating")),
             ("hvacOperationMode", StateValue.hvac m),
             ("setpointCool", StateValue.i d.cooling_setpoint),
             ("setpointHeat", StateValue.i d.heating_setpoint),
             ("temperatureInput1", StateValue.i d.current_temp)]
          Except.ok { device with states := updateStates device.states upds }
    | _ => Except.error PyError.typeError
  else if device.deviceTypeId = "lock" then
    match sd with
    | SmartRentDevice.doorLock _ d =>
      let upds := state_updates ++
        [("batteryLevel", StateValue.i d.battery_level),
         ("onOffState", StateValue.b d.locked)]
      if d.locked then
        Except.ok { device with
          stateImage := some StateImageSel.Locked,
          states := updateStates
            (updateStates device.states [("lockStatus", StateValue.s "locked")]) upds }
      else
        Except.ok { device with
          stateImage := some StateImageSel.Unlocked,
          states := updateStates
            (updateStates device.states [("lockStatus", StateValue.s "unlocked")]) upds }
    | _ => Except.error PyError.typeError
  else
    Except.ok { device with states := updateStates device.states state_updates }

/-- `Plugin.get_smartrent_device_for_device(device)`: scan the session's
device list for the first record whose `_device_id` equals the device's
`smartrent-device` plugin property; `more_itertools.first` raises
`ValueError` when no record matches. -/
def get_smartrent_device_for_device (api : List SmartRentDevice) (device : Device) :
    Except PyError SmartRentDevice :=
  match (api.filter (fun d => d.device_id == device.smartrent_device_prop)).head? with
  | some d => Except.ok d
  | none => Except.error PyError.valueError

/-- `Plugin.deviceStartComm(device)`: resolve the binding, returning
`False` on `ValueError` (the only exception caught); otherwise seed the
local state with one synchronous sync, whose own exceptions propagate, and
fall off the end returning `None`.  The result pairs the Python return
value with the device record after any state writes. -/
def deviceStartComm (api : List SmartRentDevice) (device : Device) :
    Except PyError (Option Bool × Device) :=
  match get_smartrent_device_for_device api device with
  | Except.error PyError.valueError => Except.ok (some false, device)
  | Except.error e => Except.error e
  | Except.ok sd =>
    match update_device_from_smartrent device sd with
    | Except.error e => Except.error e
    | Except.ok device2 => Except.ok (none, device2)

/-- An asynchronous remote-API call submitted through `self.run(...)`. -/
inductive RemoteCall
  | set_locked (device_id : Nat) (locked : Bool)
  | set_mode (device_id : Nat) (mode : String)
  | set_fan_mode (device_id : Nat) (mode : String)
  | set_cooling_setpoint (device_id : Nat) (v : Int)
  | set_heating_setpoint (device_id : Nat) (v : Int)
  | fetch_state (device_id : Nat)
deriving DecidableEq, Repr

/-- A log record emitted by a handler (`self.logger.warning` /
`self.logger.error`). -/
inductive LogMsg
  | warning (text : String)
  | error (text : String)
deriving DecidableEq, Repr

/-- The observable outcome of an action handler: the remote calls it
submitted, the log records it emitted, and the device record afterwards
(the handlers never write device state themselves). -/
structure ActionResult where
  calls : List RemoteCall
  logs : List LogMsg
  device : Device

/-- `indigo.kDeviceAction` values handled by `actionControlDevice`. -/
inductive DeviceAction
  | TurnOn
  | TurnOff
  | Toggle
deriving DecidableEq, Repr

/-- `indigo.kUniversalAction` values reaching `actionControlUniversal`. -/
inductive UniversalAction
  | RequestStatus
  | EnergyUpdate
deriving DecidableEq, Repr

/-- An `indigo.kThermostatAction` together with the `actionMode` /
`actionValue` field that `actionControlThermostat` reads for it. -/
inductive ThermostatAction
  | SetHvacMode (m : HvacMode)
  | SetFanMode (f : FanMode)
  | SetCoolSetpoint (v : Int)
  | SetHeatSetpoint (v : Int)
  | DecreaseCoolSetpoint (v : Int)
  | IncreaseCoolSetpoint (v : Int)
  | DecreaseHeatSetpoint (v : Int)
  | IncreaseHeatSetpoint (v : Int)
deriving DecidableEq, Repr

/-- `Plugin.actionControlDevice(action, device)`: resolve the binding (its
`ValueError` is not caught here), then for a local `lock` check the remote
class and submit the lock/unlock call; any other declared type falls
through doing nothing. -/
def actionControlDevice (api : List SmartRentDevice) (action : DeviceAction)
    (device : Device) : Except PyError ActionResult :=
  match get_smartrent_device_for_device api device with
  | Except.error e => Except.error e
  | Except.ok sd =>
    if device.deviceTypeId = "lock" then
      match sd with
      | SmartRentDevice.doorLock lid _ =>
        match action with
        | DeviceAction.TurnOn =>
          Except.ok ⟨[RemoteCall.set_locked lid true], [], device⟩
        | DeviceAction.TurnOff =>
          Except.ok ⟨[RemoteCall.set_locked lid false], [], device⟩
        | _ => Except.ok ⟨[], [], device⟩
      | _ =>
        Except.ok ⟨[], [LogMsg.error ("associated SmartRent device is not a lock")], device⟩
    else
      Except.ok ⟨[], [], device⟩

/-- `Plugin.actionControlUniversal(action, device)`: resolve the binding
(its `ValueError` is not caught here) and submit a state fetch on
`RequestStatus`. -/
def actionControlUniversal (api : List SmartRentDevice) (action : UniversalAction)
    (device : Device) : Except PyError ActionResult :=
  match get_smartrent_device_for_device api device with
  | Except.error e => Except.error e
  | Except.ok sd =>
    match action with
    | UniversalAction.RequestStatus =>
      Except.ok ⟨[RemoteCall.fetch_state sd.device_id], [], device⟩
    | _ => Except.ok ⟨[], [], device⟩

/-- `Plugin.actionControlThermostat(action, device)`: resolve the binding
(its `ValueError` is not caught here), require a remote `Thermostat`
(logging an error otherwise), then translate the thermostat sub-action;
`SetHvacMode` / `SetFanMode` go through the Indigo-to-SmartRent mapping
dictionaries with `.get`, and an unmapped mode only logs a warning. -/
def actionControlThermostat (api : List SmartRentDevice) (action : ThermostatAction)
    (device : Device) : Except PyError ActionResult :=
  match get_smartrent_device_for_device api device with
  | Except.error e => Except.error e
  | Except.ok sd =>
    match sd with
    | SmartRentDevice.thermostat tid _ =>
      match action with
      | ThermostatAction.SetHvacMode m =>
        match INDIGO_SMARTRENT_HVAC_MODES m with
        | some mode => Except.ok ⟨[RemoteCall.set_mode tid mode], [], device⟩
        | none => Except.ok ⟨[], [LogMsg.warning ("Unsupported Hvac mode")], device⟩
      | ThermostatAction.SetFanMode f =>
        match INDIGO_SMARTRENT_HVAC_FAN_MODES f with
        | some mode => Except.ok ⟨[RemoteCall.set_fan_mode tid mode], [], device⟩
        | none => Except.ok ⟨[], [LogMsg.warning ("Unsupported fan mode")], device⟩
      | ThermostatAction.SetCoolSetpoint v =>
        Except.ok ⟨[RemoteCall.set_cooling_setpoint tid v], [], device⟩
      | ThermostatAction.SetHeatSetpoint v =>
        Except.ok ⟨[RemoteCall.set_heating_setpoint tid v], [], device⟩
      | ThermostatAction.DecreaseCoolSetpoint v =>
        Except.ok ⟨[RemoteCall.set_cooling_setpoint tid (device.coolSetpoint - v)], [], device⟩
      | ThermostatAction.IncreaseCoolSetpoint v =>
        Except.ok ⟨[RemoteCall.set_cooling_setpoint tid (device.coolSetpoint + v)], [], device⟩
      | ThermostatAction.DecreaseHeatSetpoint v =>
        Except.ok ⟨[RemoteCall.set_heating_setpoint tid (device.heatSetpoint - v)], [], device⟩
      | ThermostatAction.IncreaseHeatSetpoint v =>
        Except.ok ⟨[RemoteCall.set_heating_setpoint tid (device.heatSetpoint + v)], [], device⟩
    | _ =>
      Except.ok ⟨[], [LogMsg.error ("associated SmartRent device is not a Thermostat")], device⟩

/-- A simple deterministic digest of the shared-secret string, used by the
spec-modelled TOTP generator below. -/
def strHash (s : String) : Nat :=
  s.data.foldl (fun h c => (h * 31 + c.toNat) % 1000003) 7

/-- Modelled from the spec: the external TOTP generator `pyotp.TOTP.now()`
(called by `OTP.__str__` and `generate_2fa_code`, and absent from src).
Section 4.1 describes it as a deterministic function of the shared secret,
the current time and a fixed 30-second time-step, producing a 6-digit code;
this model returns the 6-digit counter value for the time-step
`time / 30`. -/
def totp_counter (secret : String) (time : Nat) : Nat :=
  (strHash secret + time / 30) % 1000000

/-- Left-pad a counter value to the 6-digit code string. -/
def padCode (n : Nat) : String :=
  let s := toString n
  String.mk (List.replicate (6 - s.length) ('0')) ++ s

/-- The 6-digit one-time code for a secret at a given time (the string
returned by the modelled `TOTP.now()`). -/
def totp_code (secret : String) (time : Nat) : String :=
  padCode (totp_counter secret time)

/-- `Plugin.generate_2fa_code(valuesDict)`: builds `TOTP(secret)` and
returns `totp.now()`, i.e. the code of the current time-step. -/
def generate_2fa_code (secret : String) (time : Nat) : String :=
  totp_code secret time

/-- The `OTP` wrapper class from plugin.py: it stores only `TOTP(secret)`;
`__str__` computes `self._totp.now()` fresh on every call. -/
structure OTP where
  secret : String
deriving DecidableEq, Repr

/-- `OTP.__str__` evaluated at serialization time `now`. -/
def OTP.str (now : Nat) (o : OTP) : String :=
  totp_code o.secret now

/-- A JSON-serializable request payload as passed to `dumps(...,
cls=OTPEncoder)`: strings, numbers, `OTP` credential objects, objects and
arrays. -/
inductive Payload
  | str (s : String)
  | num (n : Int)
  | otpVal (o : OTP)
  | obj (fields : List (String × Payload))
  | arr (items : List Payload)

mutual

/-- `dumps(payload, cls=OTPEncoder)` at serialization time `now`: standard
JSON encoding, except that every embedded `OTP` object is replaced by
`o.__str__()` — the code of the time-step in which encoding happens. -/
def encodePayload (now : Nat) : Payload → String
  | Payload.str s => "\"" ++ s ++ "\""
  | Payload.num n => toString n
  | Payload.otpVal o => "\"" ++ OTP.str now o ++ "\""
  | Payload.obj fs => "\x7b" ++ encodeFields now fs ++ "\x7d"
  | Payload.arr xs => "[" ++ encodeItems now xs ++ "]"

/-- Encode the field list of a JSON object. -/
def encodeFields (now : Nat) : List (String × Payload) → String
  | [] => ""
  | (k, v) :: rest =>
    "\"" ++ k ++ "\":" ++ encodePayload now v ++
      (if rest.isEmpty then "" else ",") ++ encodeFields now rest

/-- Encode the item list of a JSON array. -/
def encodeItems (now : Nat) : List Payload → String
  | [] => ""
  | v :: rest =>
    encodePayload now v ++ (if rest.isEmpty then "" else ",") ++ encodeItems now rest

end

/-- Keep an optional new state image, falling back to the previous one. -/
def orElseOpt (a b : Option StateImageSel) : Option StateImageSel :=
  match a with
  | some x => some x
  | none => b

/-- The state-update plan computed by `update_device_from_smartrent` as a
function of the declared type and the remote record only: the writes pushed
before the batch, the batch itself, and the optional state image. -/
def syncPlan (typeId : String) (sd : SmartRentDevice) :
    Except PyError (List (String × StateValue) × List (String × StateValue) ×
      Option StateImageSel) :=
  let state_updates : List (String × StateValue) :=
    [("online", StateValue.b sd.get_online)]
  if typeId = "thermostat" then
    match sd with
    | SmartRentDevice.thermostat _ d =>
      match SMARTRENT_INDIGO_HVAC_FAN_MODES d.fan_mode with
      | none => Except.error PyError.keyError
      | some fm =>
        match SMARTRENT_INDIGO_HVAC_MODES d.mode with
        | none => Except.error PyError.keyError
        | some m =>
          Except.ok ([], state_updates ++
            [("humidityInput1", StateValue.i d.current_humidity),
             ("hvacCoolerIsOn", StateValue.b (d.operating_state == "cooling")),
             ("hvacFanMode", StateValue.fan fm),
             ("hvacHeaterIsOn", StateValue.b (d.operating_state == "heating")),
             ("hvacOperationMode", StateValue.hvac m),
             ("setpointCool", StateValue.i d.cooling_setpoint),
             ("setpointHeat", StateValue.i d.heating_setpoint),
             ("temperatureInput1", StateValue.i d.current_temp)], none)
    | _ => Except.error PyError.typeError
  else if typeId = "lock" then
    match sd with
    | SmartRentDevice.doorLock _ d =>
      let upds := state_updates ++
        [("batteryLevel", StateValue.i d.battery_level),
         ("onOffState", StateValue.b d.locked)]
      if d.locked then
        Except.ok ([("lockStatus", StateValue.s "locked")], upds,
          some StateImageSel.Locked)
      else
        Except.ok ([("lockStatus", StateValue.s "unlocked")], upds,
          some StateImageSel.Unlocked)
    | _ => Except.error PyError.typeError
  else
    Except.ok ([], state_updates, none)

/-- Apply a state-update plan to a device record. -/
def applyPlan (device : Device) :
    Except PyError (List (String × StateValue) × List (String × StateValue) ×
      Option StateImageSel) → Except PyError Device
  | Except.error e => Except.error e
  | Except.ok (pre, batch, img) =>
    Except.ok { device with
      states := updateStates (updateStates device.states pre) batch,
      stateImage := orElseOpt img device.stateImage }

mutual

/-- Replace every `OTP` credential object embedded anywhere in a payload by
the literal code string of the given time (the semantic content of
`OTPEncoder.default`). -/
def substOTP (now : Nat) : Payload → Payload
  | Payload.str s => Payload.str s
  | Payload.num n => Payload.num n
  | Payload.otpVal o => Payload.str (totp_code o.secret now)
  | Payload.obj fs => Payload.obj (substOTPFields now fs)
  | Payload.arr xs => Payload.arr (substOTPItems now xs)

/-- `substOTP` over the field list of a JSON object. -/
def substOTPFields (now : Nat) : List (String × Payload) → List (String × Payload)
  | [] => []
  | (k, v) :: rest => (k, substOTP now v) :: substOTPFields now rest

/-- `substOTP` over the item list of a JSON array. -/
def substOTPItems (now : Nat) : List Payload → List Payload
  | [] => []
  | v :: rest => substOTP now v :: substOTPItems now rest

end

/-- Strip one leading and one trailing character (used to read a code back
out of its JSON string quoting). -/
def unquote (s : String) : String :=
  String.mk (s.data.drop 1).dropLast

/-- Concrete local thermostat device of the C1 scenario, with an empty
initial state vector. -/
def c1_device : Device :=
  { name := "living-room-thermostat", deviceTypeId := "thermostat",
    smartrent_device_prop := 7, coolSetpoint := 0, heatSetpoint := 0,
    states := fun _ => none, stateImage := none }

/-- Concrete remote thermostat snapshot of the C1 scenario. -/
def c1_remote : SmartRentDevice :=
  SmartRentDevice.thermostat 7
    { online := true, mode := "heat", fan_mode := "auto",
      operating_state := "heating", cooling_setpoint := 72,
      heating_setpoint := 68, current_temp := 66, current_humidity := 40 }

/-- Concrete local device of declared type thermostat used for C2. -/
def c2_device : Device :=
  { name := "hall-thermostat", deviceTypeId := "thermostat",
    smartrent_device_prop := 3, coolSetpoint := 0, heatSetpoint := 0,
    states := fun _ => none, stateImage := none }

/-- Concrete remote door lock bound to `c2_device` (a category mismatch). -/
def c2_remote : SmartRentDevice :=
  SmartRentDevice.doorLock 3 { online := true, locked := true, battery_level := 80 }

/-- Concrete local lock device used for the C3 witness. -/
def c3_device : Device :=
  { name := "front-door", deviceTypeId := "lock", smartrent_device_prop := 2,
    coolSetpoint := 0, heatSetpoint := 0, states := fun _ => none,
    stateImage := none }

/-- Concrete remote lock attributes used for the C3 witness. -/
def c3_data : DoorLockData :=
  { online := true, locked := true, battery_level := 64 }

/-- Concrete local device whose binding (id 2) matches nothing in the C4
witness directory. -/
def c4_device : Device :=
  { name := "orphan-lock", deviceTypeId := "lock", smartrent_device_prop := 2,
    coolSetpoint := 0, heatSetpoint := 0, states := fun _ => none,
    stateImage := none }

/-- Concrete remote thermostat attributes used for the C5 witness. -/
def c5_td : ThermostatData :=
  { online := true, mode := "cool", fan_mode := "auto",
    operating_state := "idle", cooling_setpoint := 74, heating_setpoint := 69,
    current_temp := 71, current_humidity := 35 }

/-- Concrete local thermostat used for the C5 witness. -/
def c5_device : Device :=
  { name := "bedroom-thermostat", deviceTypeId := "thermostat",
    smartrent_device_prop := 4, coolSetpoint := 74, heatSetpoint := 69,
    states := fun _ => none, stateImage := none }

/-- Concrete device directory used for the C5 witness. -/
def c5_api : List SmartRentDevice :=
  [SmartRentDevice.thermostat 4 c5_td]

/-- Concrete local device of an unsupported declared type used for the C6
witness. -/
def c6_device : Device :=
  { name := "laundry-leak-sensor", deviceTypeId := "leakSensor",
    smartrent_device_prop := 5, coolSetpoint := 0, heatSetpoint := 0,
    states := fun _ => none, stateImage := none }

/-- Concrete remote leak sensor bound to `c6_device`. -/
def c6_remote : SmartRentDevice :=
  SmartRentDevice.leakSensor 5 true

/-- The state of `c6_device` after one sync against `c6_remote`. -/
def c6_once : Device :=
  { c6_device with
    states := updateStates c6_device.states [("online", StateValue.b true)] }

/-- Concrete local device of an unsupported declared type used for the C7
witness. -/
def c7_device : Device :=
  { name := "hall-motion-sensor", deviceTypeId := "motionSensor",
    smartrent_device_prop := 6, coolSetpoint := 0, heatSetpoint := 0,
    states := fun _ => none, stateImage := none }

/-- Concrete remote record bound to `c7_device`. -/
def c7_remote : SmartRentDevice :=
  SmartRentDevice.leakSensor 6 false

/-- Concrete OTP credential object used for C8. -/
def c8_otp : OTP :=
  { secret := "JBSWY3DPEHPK3PXP" }

/-- Concrete local device with an unresolvable binding used for the C10
witness. -/
def c10_device : Device :=
  { name := "detached-thermostat", deviceTypeId := "thermostat",
    smartrent_device_prop := 11, coolSetpoint := 70, heatSetpoint := 65,
    states := fun _ => none, stateImage := none }

/-- The sync operation is exactly the application of the plan computed from
the declared type and the remote record. -/
lemma update_device_eq_plan (device : Device) (sd : SmartRentDevice) :
    update_device_from_smartrent device sd =
      applyPlan device (syncPlan device.deviceTypeId sd) := by
  unfold update_device_from_smartrent syncPlan
  by_cases h1 : device.deviceTypeId = "thermostat"
  · rw [if_pos h1, if_pos h1]
    cases sd with
    | thermostat i d =>
      cases hf : SMARTRENT_INDIGO_HVAC_FAN_MODES d.fan_mode with
      | none => simp [hf, applyPlan]
      | some fm =>
        cases hm : SMARTRENT_INDIGO_HVAC_MODES d.mode with
        | none => simp [hf, hm, applyPlan]
        | some m => simp [hf, hm, applyPlan, orElseOpt, updateStates]
    | doorLock i d => rfl
    | leakSensor i onl => rfl
  · rw [if_neg h1, if_neg h1]
    by_cases h2 : device.deviceTypeId = "lock"
    · rw [if_pos h2, if_pos h2]
      cases sd with
      | thermostat i d => rfl
      | doorLock i d =>
        by_cases hl : d.locked
        · simp [hl, applyPlan, orElseOpt]
        · simp [hl, applyPlan, orElseOpt]
      | leakSensor i onl => rfl
    · rw [if_neg h2, if_neg h2]
      simp [applyPlan, orElseOpt, updateStates]

/-- Pointwise characterization: a later accumulator seed is overridden by
any matching write in the list. -/
lemma lookupUpdFrom_or (us : List (String × StateValue)) (a : Option StateValue)
    (k : String) :
    lookupUpdFrom a us k =
      match lookupUpd us k with
      | some v => some v
      | none => a := by
  induction us generalizing a with
  | nil => cases a <;> rfl
  | cons u us ih =>
    show lookupUpdFrom (if k = u.1 then some u.2 else a) us k = _
    rw [ih]
    have hu : lookupUpd (u :: us) k =
        lookupUpdFrom (if k = u.1 then some u.2 else none) us k := rfl
    rw [hu, ih]
    by_cases hk : k = u.1
    · rw [if_pos hk, if_pos hk]
      cases lookupUpd us k <;> rfl
    · rw [if_neg hk, if_neg hk]
      cases lookupUpd us k <;> rfl

/-- Pointwise characterization of `updateStates`: the last matching write
wins, and absent keys fall through to the previous state. -/
lemma updateStates_apply (us : List (String × StateValue)) (st : StateVec)
    (k : String) :
    updateStates st us k =
      match lookupUpd us k with
      | some v => some v
      | none => st k := by
  induction us generalizing st with
  | nil => rfl
  | cons u us ih =>
    show updateStates (fun k2 => if k2 = u.1 then some u.2 else st k2) us k = _
    rw [ih]
    have hu : lookupUpd (u :: us) k =
        lookupUpdFrom (if k = u.1 then some u.2 else none) us k := rfl
    rw [hu, lookupUpdFrom_or]
    by_cases hk : k = u.1
    · rw [if_pos hk]
      cases lookupUpd us k <;> simp [hk]
    · rw [if_neg hk]
      cases lookupUpd us k <;> simp [hk]

/-- Re-applying the same pre/batch write pair is a no-op on the state
vector. -/
lemma updateStates_restate (pre batch : List (String × StateValue)) (st : StateVec) :
    updateStates (updateStates (updateStates (updateStates st pre) batch) pre) batch
      = updateStates (updateStates st pre) batch := by
  funext k
  simp only [updateStates_apply]
  cases lookupUpd batch k <;> cases lookupUpd pre k <;> rfl

/-- Re-imposing the same optional state image is a no-op. -/
lemma orElseOpt_idem (a b : Option StateImageSel) :
    orElseOpt a (orElseOpt a b) = orElseOpt a b := by
  cases a <;> rfl

/-- When no directory record carries the device's binding identifier, the
binding lookup raises `ValueError`. -/
lemma lookup_fails_of_unbound (api : List SmartRentDevice) (device : Device)
    (h : ∀ sd ∈ api, sd.device_id ≠ device.smartrent_device_prop) :
    get_smartrent_device_for_device api device = Except.error PyError.valueError := by
  have hfilter :
      api.filter (fun d => d.device_id == device.smartrent_device_prop) = [] := by
    rw [List.filter_eq_nil_iff]
    intro a ha
    simp only [beq_iff_eq]
    exact h a ha
  unfold get_smartrent_device_for_device
  rw [hfilter]
  rfl

/-- `substOTPFields` preserves emptiness of the field list. -/
lemma substOTPFields_isEmpty (now : Nat) (fs : List (String × Payload)) :
    (substOTPFields now fs).isEmpty = fs.isEmpty := by
  cases fs with
  | nil => rfl
  | cons u rest => cases u; rfl

/-- `substOTPItems` preserves emptiness of the item list. -/
lemma substOTPItems_isEmpty (now : Nat) (xs : List Payload) :
    (substOTPItems now xs).isEmpty = xs.isEmpty := by
  cases xs <;> rfl

mutual

/-- Encoding a payload is the same as encoding the payload in which every
embedded `OTP` object has been replaced by the literal code string of the
encoding time: the encoder generates codes at encode time. -/
lemma encode_substOTP (now : Nat) :
    (p : Payload) → encodePayload now p = encodePayload now (substOTP now p)
  | Payload.str s => rfl
  | Payload.num n => rfl
  | Payload.otpVal o => rfl
  | Payload.obj fs => by
    rw [substOTP, encodePayload, encodePayload, encodeFields_substOTP now fs]
  | Payload.arr xs => by
    rw [substOTP, encodePayload, encodePayload, encodeItems_substOTP now xs]

/-- Field-list part of `encode_substOTP`. -/
lemma encodeFields_substOTP (now : Nat) :
    (fs : List (String × Payload)) →
      encodeFields now fs = encodeFields now (substOTPFields now fs)
  | [] => rfl
  | (k, v) :: rest => by
    rw [substOTPFields, encodeFields, encodeFields,
      encode_substOTP now v, encodeFields_substOTP now rest,
      substOTPFields_isEmpty]

/-- Item-list part of `encode_substOTP`. -/
lemma encodeItems_substOTP (now : Nat) :
    (xs : List Payload) → encodeItems now xs = encodeItems now (substOTPItems now xs)
  | [] => rfl
  | v :: rest => by
    rw [substOTPItems, encodeItems, encodeItems,
      encode_substOTP now v, encodeItems_substOTP now rest,
      substOTPItems_isEmpty]

end

/-- Reading back a quoted string yields the string itself. -/
lemma unquote_quote (a : String) : unquote ("\"" ++ a ++ "\"") = a := by
  unfold unquote
  have hdata : (("\"" ++ a ++ "\"").data) = '"' :: (a.data ++ ['"']) := by
    simp [String.data_append]
  rw [hdata]
  simp [List.dropLast_concat]

/-- C1: for a local thermostat device bound to a remote thermostat
reporting mode "heat", fan_mode "auto", operating_state "heating",
cooling_setpoint 72, heating_setpoint 68, current_temp 66 and
current_humidity 40, one sync call (`update_device_from_smartrent`)
succeeds and produces hvacOperationMode = Heat, hvacFanMode = Auto,
hvacHeaterIsOn = true, hvacCoolerIsOn = false, setpointCool = 72,
setpointHeat = 68, temperatureInput1 = 66 and humidityInput1 = 40, the
mode values mapped through the fixed enumerations. -/
theorem C1_thermostat_scenario :
    ∃ d', update_device_from_smartrent c1_device c1_remote = Except.ok d' ∧
      d'.states ("hvacOperationMode") = some (StateValue.hvac HvacMode.Heat) ∧
      d'.states ("hvacFanMode") = some (StateValue.fan FanMode.Auto) ∧
      d'.states ("hvacHeaterIsOn") = some (StateValue.b true) ∧
      d'.states ("hvacCoolerIsOn") = some (StateValue.b false) ∧
      d'.states ("setpointCool") = some (StateValue.i 72) ∧
      d'.states ("setpointHeat") = some (StateValue.i 68) ∧
      d'.states ("temperatureInput1") = some (StateValue.i 66) ∧
      d'.states ("humidityInput1") = some (StateValue.i 40) := by
  refine ⟨_, rfl, ?_, ?_, ?_, ?_, ?_, ?_, ?_, ?_⟩ <;> rfl

/-- C2 (counterexample): the claim says a category mismatch in the sync
call is logged and skipped with no exception escaping; in fact, for the
concrete thermostat device `c2_device` bound to the remote door lock
`c2_remote`, `update_device_from_smartrent` raises `TypeError`, and the
exception also escapes `deviceStartComm`, which catches only
`ValueError`. -/
theorem C2_counterexample :
    update_device_from_smartrent c2_device c2_remote =
      Except.error PyError.typeError ∧
    deviceStartComm [c2_remote] c2_device = Except.error PyError.typeError := by
  exact ⟨rfl, rfl⟩

/-- C2 (amended): for every sync call where the local device's declared
type (thermostat or lock) does not match the class of the resolved remote
device, the sync call raises a `TypeError` that escapes the call (it is
not caught, and no state update is applied). -/
theorem C2_mismatch_raises (device : Device) (sd : SmartRentDevice)
    (h : (device.deviceTypeId = "thermostat" ∧
            ∀ i d, sd ≠ SmartRentDevice.thermostat i d) ∨
         (device.deviceTypeId = "lock" ∧
            ∀ i d, sd ≠ SmartRentDevice.doorLock i d)) :
    update_device_from_smartrent device sd = Except.error PyError.typeError := by
  unfold update_device_from_smartrent
  rcases h with ⟨h1, h2⟩ | ⟨h1, h2⟩
  · rw [if_pos h1]
    cases sd with
    | thermostat i d => exact absurd rfl (h2 i d)
    | doorLock i d => rfl
    | leakSensor i onl => rfl
  · have h1' : device.deviceTypeId ≠ "thermostat" := by rw [h1]; decide
    rw [if_neg h1', if_pos h1]
    cases sd with
    | thermostat i d => rfl
    | doorLock i d => exact absurd rfl (h2 i d)
    | leakSensor i onl => rfl

/-- Witness for `C2_mismatch_raises` at the concrete mismatched pair. -/
theorem C2_mismatch_raises_witness :
    update_device_from_smartrent c2_device c2_remote =
      Except.error PyError.typeError := by
  exact C2_mismatch_raises c2_device c2_remote
    (Or.inl ⟨rfl, by intro i d hcontra; cases hcontra⟩)

/-- C3: for every sync of a local device of declared type lock bound to a
remote door lock, the resulting state has the `onOffState` boolean equal
to the remote locked flag, `lockStatus` text "locked"/"unlocked"
accordingly, the matching visual indicator, and `batteryLevel` set from
the remote battery level. -/
theorem C3_lock_sync (device : Device) (lid : Nat) (d : DoorLockData)
    (h : device.deviceTypeId = "lock") :
    ∃ d', update_device_from_smartrent device (SmartRentDevice.doorLock lid d) =
        Except.ok d' ∧
      d'.states ("onOffState") = some (StateValue.b d.locked) ∧
      d'.states ("lockStatus") =
        some (StateValue.s (if d.locked then "locked" else "unlocked")) ∧
      d'.stateImage =
        some (if d.locked then StateImageSel.Locked else StateImageSel.Unlocked) ∧
      d'.states ("batteryLevel") = some (StateValue.i d.battery_level) := by
  have h1 : device.deviceTypeId ≠ "thermostat" := by rw [h]; decide
  cases hl : d.locked with
  | true =>
    refine ⟨{ device with
        stateImage := some StateImageSel.Locked,
        states := updateStates
          (updateStates device.states [("lockStatus", StateValue.s "locked")])
          [("online", StateValue.b d.online),
           ("batteryLevel", StateValue.i d.battery_level),
           ("onOffState", StateValue.b d.locked)] }, ?_, ?_, ?_, ?_, ?_⟩
    · simp only [update_device_from_smartrent, if_neg h1, if_pos h, hl]
      simp [hl, SmartRentDevice.get_online]
    · simp [updateStates, hl]
    · simp [updateStates, hl]
    · simp [hl]
    · simp [updateStates, hl]
  | false =>
    refine ⟨{ device with
        stateImage := some StateImageSel.Unlocked,
        states := updateStates
          (updateStates device.states [("lockStatus", StateValue.s "unlocked")])
          [("online", StateValue.b d.online),
           ("batteryLevel", StateValue.i d.battery_level),
           ("onOffState", StateValue.b d.locked)] }, ?_, ?_, ?_, ?_, ?_⟩
    · simp only [update_device_from_smartrent, if_neg h1, if_pos h, hl]
      simp [hl, SmartRentDevice.get_online]
    · simp [updateStates, hl]
    · simp [updateStates, hl]
    · simp [hl]
    · simp [updateStates, hl]

/-- Witness for `C3_lock_sync` at a concrete locked door. -/
theorem C3_lock_sync_witness :
    ∃ d', update_device_from_smartrent c3_device
        (SmartRentDevice.doorLock 2 c3_data) = Except.ok d' ∧
      d'.states ("onOffState") = some (StateValue.b c3_data.locked) ∧
      d'.states ("lockStatus") =
        some (StateValue.s (if c3_data.locked then "locked" else "unlocked")) ∧
      d'.stateImage = some (if c3_data.locked then StateImageSel.Locked
        else StateImageSel.Unlocked) ∧
      d'.states ("batteryLevel") = some (StateValue.i c3_data.battery_level) := by
  exact C3_lock_sync c3_device 2 c3_data rfl

/-- C4: for every local device whose declared binding identifier matches no
device in the remote device directory, `deviceStartComm` returns `False`
and applies no state update to the device's observable-state vector. -/
theorem C4_unresolved_binding (api : List SmartRentDevice) (device : Device)
    (h : ∀ sd ∈ api, sd.device_id ≠ device.smartrent_device_prop) :
    deviceStartComm api device = Except.ok (some false, device) := by
  unfold deviceStartComm
  rw [lookup_fails_of_unbound api device h]

/-- Witness for `C4_unresolved_binding`: a directory holding only device 9
cannot resolve a binding to id 2. -/
theorem C4_unresolved_binding_witness :
    deviceStartComm [SmartRentDevice.leakSensor 9 true] c4_device =
      Except.ok (some false, c4_device) := by
  exact C4_unresolved_binding [SmartRentDevice.leakSensor 9 true] c4_device
    (by decide)

/-- C5: for every thermostat `SetHvacMode` (or `SetFanMode`) action whose
mode value is not in the fixed Indigo-to-SmartRent mapping,
`actionControlThermostat` logs a warning, submits no remote call, and
leaves the device unchanged. -/
theorem C5_unsupported_mode (api : List SmartRentDevice) (device : Device)
    (tid : Nat) (td : ThermostatData)
    (hres : get_smartrent_device_for_device api device =
      Except.ok (SmartRentDevice.thermostat tid td)) :
    (∀ m, INDIGO_SMARTRENT_HVAC_MODES m = none →
      actionControlThermostat api (ThermostatAction.SetHvacMode m) device =
        Except.ok ⟨[], [LogMsg.warning ("Unsupported Hvac mode")], device⟩) ∧
    (∀ f, INDIGO_SMARTRENT_HVAC_FAN_MODES f = none →
      actionControlThermostat api (ThermostatAction.SetFanMode f) device =
        Except.ok ⟨[], [LogMsg.warning ("Unsupported fan mode")], device⟩) := by
  constructor
  · intro m hm
    unfold actionControlThermostat
    rw [hres]
    simp [hm]
  · intro f hf
    cases f <;> simp [INDIGO_SMARTRENT_HVAC_FAN_MODES] at hf

/-- Witness for `C5_unsupported_mode`: `ProgramHeat` is unmapped, so the
action only warns. -/
theorem C5_unsupported_mode_witness :
    actionControlThermostat c5_api
        (ThermostatAction.SetHvacMode HvacMode.ProgramHeat) c5_device =
      Except.ok ⟨[], [LogMsg.warning ("Unsupported Hvac mode")], c5_device⟩ := by
  exact (C5_unsupported_mode c5_api c5_device 4 c5_td rfl).1
    HvacMode.ProgramHeat rfl

/-- C6: the sync operation is idempotent — if a sync call yields state
`d1`, syncing `d1` again with the same remote snapshot yields `d1`
unchanged (the computed state-update set is a function of the snapshot and
declared type only). -/
theorem C6_sync_idempotent (device : Device) (sd : SmartRentDevice) (d1 : Device)
    (h : update_device_from_smartrent device sd = Except.ok d1) :
    update_device_from_smartrent d1 sd = Except.ok d1 := by
  obtain ⟨nm, tid, prop, cs, hs, st, img⟩ := device
  rw [update_device_eq_plan] at h
  dsimp only at h
  cases hp : syncPlan tid sd with
  | error e =>
    rw [hp] at h
    simp [applyPlan] at h
  | ok plan =>
    obtain ⟨pre, batch, img2⟩ := plan
    rw [hp] at h
    simp only [applyPlan, Except.ok.injEq] at h
    subst h
    rw [update_device_eq_plan]
    dsimp only
    rw [hp]
    simp [applyPlan, updateStates_restate, orElseOpt_idem]

/-- Witness for `C6_sync_idempotent`: syncing the concrete leak-sensor
device twice yields the state of one sync. -/
theorem C6_sync_idempotent_witness :
    update_device_from_smartrent c6_device c6_remote = Except.ok c6_once ∧
    update_device_from_smartrent c6_once c6_remote = Except.ok c6_once := by
  have h1 : update_device_from_smartrent c6_device c6_remote =
      Except.ok c6_once := rfl
  exact ⟨h1, C6_sync_idempotent c6_device c6_remote c6_once h1⟩

/-- C7: for every local device whose declared type is neither thermostat
nor lock, a sync call writes exactly the online flag: it succeeds, sets
`online` from the remote record, leaves every other state key unchanged,
and changes no other field of the device record. -/
theorem C7_unknown_type_frame (device : Device) (sd : SmartRentDevice)
    (h1 : device.deviceTypeId ≠ "thermostat")
    (h2 : device.deviceTypeId ≠ "lock") :
    ∃ d', update_device_from_smartrent device sd = Except.ok d' ∧
      d'.states ("online") = some (StateValue.b sd.get_online) ∧
      (∀ k, k ≠ "online" → d'.states k = device.states k) ∧
      d'.stateImage = device.stateImage ∧
      d'.name = device.name ∧
      d'.deviceTypeId = device.deviceTypeId ∧
      d'.smartrent_device_prop = device.smartrent_device_prop ∧
      d'.coolSetpoint = device.coolSetpoint ∧
      d'.heatSetpoint = device.heatSetpoint := by
  refine ⟨{ device with
      states := updateStates device.states
        [("online", StateValue.b sd.get_online)] },
    ?_, ?_, ?_, rfl, rfl, rfl, rfl, rfl, rfl⟩
  · unfold update_device_from_smartrent
    rw [if_neg h1, if_neg h2]
  · simp [updateStates]
  · intro k hk
    simp [updateStates, hk]

/-- Witness for `C7_unknown_type_frame` at a concrete motion-sensor
device. -/
theorem C7_unknown_type_frame_witness :
    ∃ d', update_device_from_smartrent c7_device c7_remote = Except.ok d' ∧
      d'.states ("online") = some (StateValue.b c7_remote.get_online) ∧
      (∀ k, k ≠ "online" → d'.states k = c7_device.states k) ∧
      d'.stateImage = c7_device.stateImage ∧
      d'.name = c7_device.name ∧
      d'.deviceTypeId = c7_device.deviceTypeId ∧
      d'.smartrent_device_prop = c7_device.smartrent_device_prop ∧
      d'.coolSetpoint = c7_device.coolSetpoint ∧
      d'.heatSetpoint = c7_device.heatSetpoint := by
  exact C7_unknown_type_frame c7_device c7_remote (by decide) (by decide)

/-- C8 (counterexample): the claim says two serializations of the same OTP
object in different time-steps produce different codes; at the concrete
time-steps 0 and 1000000 (times 0 and 30000000 seconds) the 6-digit code
space has wrapped around and the two serializations of `c8_otp` are
equal. -/
theorem C8_counterexample :
    (0 : Nat) / 30 ≠ 30000000 / 30 ∧
    encodePayload 0 (Payload.otpVal c8_otp) =
      encodePayload 30000000 (Payload.otpVal c8_otp) := by
  constructor
  · decide
  · rfl

/-- C8 (amended): JSON serialization with the session's encoder replaces
every embedded OTP credential object with the one-time code computed from
the secret at the moment of serialization — the code of the encoding
time-step, independent of when the OTP object was constructed — and two
serializations of the same OTP object in time-steps whose codes differ
produce different outputs (codes of far-apart time-steps can coincide, as
the 6-digit space is finite). -/
theorem C8_encoder (o : OTP) (p : Payload) (t1 t2 : Nat) :
    encodePayload t1 (Payload.otpVal o) =
      "\"" ++ totp_code o.secret t1 ++ "\"" ∧
    encodePayload t1 p = encodePayload t1 (substOTP t1 p) ∧
    (totp_code o.secret t1 ≠ totp_code o.secret t2 →
      encodePayload t1 (Payload.otpVal o) ≠ encodePayload t2 (Payload.otpVal o)) := by
  refine ⟨rfl, encode_substOTP t1 p, ?_⟩
  intro hne heq
  apply hne
  have h1 := congrArg unquote heq
  rwa [show encodePayload t1 (Payload.otpVal o) =
        "\"" ++ totp_code o.secret t1 ++ "\"" from rfl,
    show encodePayload t2 (Payload.otpVal o) =
        "\"" ++ totp_code o.secret t2 ++ "\"" from rfl,
    unquote_quote, unquote_quote] at h1

/-- Witness for `C8_encoder`: serializations of `c8_otp` one time-step
apart differ. -/
theorem C8_encoder_witness :
    encodePayload 0 (Payload.otpVal c8_otp) ≠
      encodePayload 30 (Payload.otpVal c8_otp) := by
  exact (C8_encoder c8_otp (Payload.num 1) 0 30).2.2 (by decide)

/-- C9 (counterexample): the claim says two codes generated more than one
time-step apart differ; for the concrete secret of the spec scenario, the
codes at time-steps 0 and 1000000 (more than one step apart) are equal —
a 6-digit code space must repeat. -/
theorem C9_counterexample :
    (0 : Nat) / 30 + 1 < 30000000 / 30 ∧
    generate_2fa_code ("JBSWY3DPEHPK3PXP") 0 =
      generate_2fa_code ("JBSWY3DPEHPK3PXP") 30000000 := by
  constructor
  · decide
  · rfl

/-- C9 (amended): code generation is a deterministic function of the
secret and the time-step — two codes generated within the same time-step
are equal — while two codes more than one time-step apart usually differ
but need not always (the spec scenario's adjacent steps 0 and 1 do
differ). -/
theorem C9_determinism :
    (∀ s t1 t2, t1 / 30 = t2 / 30 →
      generate_2fa_code s t1 = generate_2fa_code s t2) ∧
    generate_2fa_code ("JBSWY3DPEHPK3PXP") 0 ≠
      generate_2fa_code ("JBSWY3DPEHPK3PXP") 30 := by
  constructor
  · intro s t1 t2 h
    unfold generate_2fa_code totp_code totp_counter
    rw [h]
  · decide

/-- Witness for `C9_determinism`: two calls within the same 30-second
window produce the same string. -/
theorem C9_determinism_witness :
    generate_2fa_code ("JBSWY3DPEHPK3PXP") 3 =
      generate_2fa_code ("JBSWY3DPEHPK3PXP") 17 := by
  exact C9_determinism.1 ("JBSWY3DPEHPK3PXP") 3 17 rfl

/-- C10: for every local device whose binding resolves to no remote
device, each action handler propagates the `ValueError` raised by the
binding lookup (raising out of the handler with no remote call submitted),
while `deviceStartComm` alone catches it and returns `False`. -/
theorem C10_unbound_action_raises (api : List SmartRentDevice) (device : Device)
    (h : ∀ sd ∈ api, sd.device_id ≠ device.smartrent_device_prop) :
    (∀ a, actionControlDevice api a device = Except.error PyError.valueError) ∧
    (∀ a, actionControlUniversal api a device = Except.error PyError.valueError) ∧
    (∀ a, actionControlThermostat api a device = Except.error PyError.valueError) ∧
    deviceStartComm api device = Except.ok (some false, device) := by
  have hl := lookup_fails_of_unbound api device h
  refine ⟨?_, ?_, ?_, ?_⟩
  · intro a
    unfold actionControlDevice
    rw [hl]
  · intro a
    unfold actionControlUniversal
    rw [hl]
  · intro a
    unfold actionControlThermostat
    rw [hl]
  · unfold deviceStartComm
    rw [hl]

/-- Witness for `C10_unbound_action_raises` against an empty device
directory. -/
theorem C10_unbound_action_raises_witness :
    actionControlDevice [] DeviceAction.TurnOn c10_device =
      Except.error PyError.valueError ∧
    actionControlUniversal [] UniversalAction.RequestStatus c10_device =
      Except.error PyError.valueError ∧
    actionControlThermostat [] (ThermostatAction.SetCoolSetpoint 70) c10_device =
      Except.error PyError.valueError ∧
    deviceStartComm [] c10_device = Except.ok (some false, c10_device) := by
  have hc := C10_unbound_action_raises [] c10_device
    (by intro sd hsd; cases hsd)
  exact ⟨hc.1 DeviceAction.TurnOn, hc.2.1 UniversalAction.RequestStatus,
    hc.2.2.1 (ThermostatAction.SetCoolSetpoint 70), hc.2.2.2⟩
